import Mathlib

/-!
Verification of the `Topic` pub/sub abstraction of `src/Topic.ts`
(cockpit-example).

The TypeScript class is embedded as an operational model.  A `World`
carries the private state of one `Topic` instance (`#publisher`,
`#subscriptions`, the immutable `#name` / `#messageType`), the states of
all promises created so far, a FIFO microtask queue for `.then`
continuations, and a trace of the externally visible calls: requests
issued to the Connection (`createPublisher`, `createSubscription`) and
calls made on resolved Publisher / Subscription handles (`publish`,
`unadvertise`, `unsubscribe`).

Promise semantics follow JavaScript: `.then` on a pending promise
appends the continuation to that promise's reaction list; resolving a
promise enqueues its reactions, in registration order, onto the
microtask queue; `.then` on an already-resolved promise enqueues the
continuation directly; reactions of a rejected promise are dropped (the
code installs no rejection handler, so a rejection silently discards
the fulfillment continuation).  Every continuation appearing in
`Topic.ts` is one of three closed shapes, captured by `Reaction`.

Callbacks and messages are identified by `Nat` (callback identity is
reference identity in the source, an opaque key); publisher and
subscription handles are numbered by the order in which their promises
resolve.  `connected` models whether `this.#ros.rosImpl` is defined:
optional chaining (`?.`) short-circuits when it is not.
-/

/-- The three `.then` fulfillment continuations occurring in `Topic.ts`:
the body of `publish` (`publisher.publish(message)`), the body of
`subscribe` (`this.#subscriptions.set(callback, subscription)`), and
the body of `unadvertise` (`publisher.unadvertise();
this.#publisher = undefined`). -/
inductive Reaction where
  | pubForward (msg : Nat)
  | subStore (cb : Nat)
  | unadvertiseCont
deriving DecidableEq, Repr

/-- State of one promise: pending with its registered fulfillment
reactions in registration order, resolved with a handle id, or
rejected. -/
inductive PromState where
  | pending (reactions : List Reaction)
  | resolved (handle : Nat)
  | rejected
deriving DecidableEq, Repr

/-- Externally visible events: requests issued to the Connection and
calls received by resolved handles. -/
inductive Ev where
  | createPublisher (name messageType : String)
  | createSubscription (name : String) (cb : Nat)
  | publishMsg (handle msg : Nat)
  | unadvertiseHandle (handle : Nat)
  | unsubscribeHandle (handle : Nat)
deriving DecidableEq, Repr

/-- The private fields of one `Topic` instance: the immutable `#name`
and `#messageType`, the current `#publisher` promise (by id, `none` for
`undefined`), and the `#subscriptions` map, a `Map` from callback
identity to subscription handle kept in insertion order. -/
structure TopicState where
  name : String
  messageType : String
  publisher : Option Nat
  subscriptions : List (Nat × Nat)
deriving DecidableEq, Repr

/-- The whole model state: topic fields, whether `#ros.rosImpl` is
defined, all promises by id, the microtask queue (promise id paired
with the continuation to run), the event trace, and fresh-id
counters. -/
structure World where
  topic : TopicState
  connected : Bool
  promises : List (Nat × PromState)
  microtasks : List (Nat × Reaction)
  trace : List Ev
  nextProm : Nat
  nextHandle : Nat
deriving DecidableEq, Repr

/-- Look up a promise state by id. -/
def promLookup (ps : List (Nat × PromState)) (p : Nat) : Option PromState :=
  ps.lookup p

/-- Replace the state of promise `p`. -/
def promSet (p : Nat) (s : PromState) (ps : List (Nat × PromState)) :
    List (Nat × PromState) :=
  ps.map (fun e => if e.1 = p then (p, s) else e)

/-- `Map.prototype.set`: updates the value in place when the key is
present (keeping its insertion position), otherwise appends. -/
def mapSet (k v : Nat) (m : List (Nat × Nat)) : List (Nat × Nat) :=
  if m.any (fun e => e.1 = k) then
    m.map (fun e => if e.1 = k then (k, v) else e)
  else
    m ++ [(k, v)]

/-- `Map.prototype.delete`: removes the entry with key `k` when
present. -/
def mapDelete (k : Nat) (m : List (Nat × Nat)) : List (Nat × Nat) :=
  m.filter (fun e => ¬ e.1 = k)

/-- `promise.then(onFulfilled)`: register continuation `c` on promise
`p`.  Pending: appended to the reaction list.  Resolved: enqueued
directly on the microtask queue.  Rejected: dropped (no rejection
handler in `Topic.ts`). -/
def thenAttach (p : Nat) (c : Reaction) (w : World) : World :=
  match promLookup w.promises p with
  | some (.pending rs) =>
      { w with promises := promSet p (.pending (rs ++ [c])) w.promises }
  | some (.resolved _) =>
      { w with microtasks := w.microtasks ++ [(p, c)] }
  | _ => w

/-- `Topic.advertise()`:
`this.#publisher = this.#ros.rosImpl?.createPublisher(this.name,
this.messageType)`.  When `rosImpl` is defined this unconditionally
issues a fresh `createPublisher` request and stores the new pending
promise, whatever `#publisher` held before; otherwise `#publisher`
becomes `undefined`. -/
def advertise (w : World) : World :=
  if w.connected then
    { w with
      topic := { w.topic with publisher := some w.nextProm }
      promises := w.promises ++ [(w.nextProm, .pending [])]
      trace := w.trace ++ [.createPublisher w.topic.name w.topic.messageType]
      nextProm := w.nextProm + 1 }
  else
    { w with topic := { w.topic with publisher := none } }

/-- `Topic.publish(message)`: if `#publisher` is unset, call
`advertise()` first; then chain `publisher.publish(message)` behind
the (possibly new) `#publisher` promise via `?.then`. -/
def publish (m : Nat) (w : World) : World :=
  let w1 := if w.topic.publisher = none then advertise w else w
  match w1.topic.publisher with
  | some p => thenAttach p (.pubForward m) w1
  | none => w1

/-- `Topic.subscribe(callback)`:
`this.#ros.rosImpl?.createSubscription(this.name, callback).then(...)`.
When `rosImpl` is defined this issues a fresh `createSubscription`
request whose promise carries the map-insertion continuation; the
promise itself is not stored in any field. -/
def subscribe (cb : Nat) (w : World) : World :=
  if w.connected then
    { w with
      promises := w.promises ++ [(w.nextProm, .pending [.subStore cb])]
      trace := w.trace ++ [.createSubscription w.topic.name cb]
      nextProm := w.nextProm + 1 }
  else w

/-- `Topic.unsubscribe(callback)` with an argument:
`this.#subscriptions.get(callback)?.unsubscribe();
this.#subscriptions.delete(callback)`. -/
def unsubscribeOne (cb : Nat) (w : World) : World :=
  let w1 : World :=
    match w.topic.subscriptions.lookup cb with
    | some h => { w with trace := w.trace ++ [.unsubscribeHandle h] }
    | none => w
  { w1 with topic :=
      { w1.topic with subscriptions := mapDelete cb w1.topic.subscriptions } }

/-- `Topic.unsubscribe()` without an argument: iterate the map values
in insertion order calling `unsubscribe()` on each handle, then clear
the map. -/
def unsubscribeAll (w : World) : World :=
  { w with
    trace := w.trace ++ w.topic.subscriptions.map (fun e => .unsubscribeHandle e.2)
    topic := { w.topic with subscriptions := [] } }

/-- `Topic.unadvertise()`: `this.#publisher?.then((publisher) => {
publisher.unadvertise(); this.#publisher = undefined })`.  A no-op when
`#publisher` is unset; otherwise registers the teardown continuation on
the current publisher promise. -/
def unadvertise (w : World) : World :=
  match w.topic.publisher with
  | some p => thenAttach p .unadvertiseCont w
  | none => w

/-- Environment step: the Connection fulfills pending promise `p` with
a fresh handle; the promise's reactions move, in registration order,
to the back of the microtask queue. -/
def resolveProm (p : Nat) (w : World) : World :=
  match promLookup w.promises p with
  | some (.pending rs) =>
      { w with
        promises := promSet p (.resolved w.nextHandle) w.promises
        microtasks := w.microtasks ++ rs.map (fun c => (p, c))
        nextHandle := w.nextHandle + 1 }
  | _ => w

/-- Environment step: the Connection rejects pending promise `p`; its
fulfillment reactions are dropped. -/
def rejectProm (p : Nat) (w : World) : World :=
  match promLookup w.promises p with
  | some (.pending _) => { w with promises := promSet p .rejected w.promises }
  | _ => w

/-- Run one continuation against the handle `h` its promise resolved
with. -/
def runCont (h : Nat) (c : Reaction) (w : World) : World :=
  match c with
  | .pubForward m => { w with trace := w.trace ++ [.publishMsg h m] }
  | .subStore cb =>
      { w with topic :=
          { w.topic with subscriptions := mapSet cb h w.topic.subscriptions } }
  | .unadvertiseCont =>
      { w with
        trace := w.trace ++ [.unadvertiseHandle h]
        topic := { w.topic with publisher := none } }

/-- Pop and run the front microtask, if any. -/
def runMicro (w : World) : World :=
  match w.microtasks with
  | [] => w
  | (p, c) :: rest =>
      match promLookup w.promises p with
      | some (.resolved h) => runCont h c { w with microtasks := rest }
      | _ => { w with microtasks := rest }

/-- One step of an execution: a `Topic` API call, or an environment
step (promise settlement / microtask turn). -/
inductive Op where
  | advertiseOp
  | unadvertiseOp
  | publishOp (m : Nat)
  | subscribeOp (cb : Nat)
  | unsubscribeOp (cb : Nat)
  | unsubscribeAllOp
  | resolveOp (p : Nat)
  | rejectOp (p : Nat)
  | microOp
deriving DecidableEq, Repr

/-- Interpret one step. -/
def stepOp (o : Op) (w : World) : World :=
  match o with
  | .advertiseOp => advertise w
  | .unadvertiseOp => unadvertise w
  | .publishOp m => publish m w
  | .subscribeOp cb => subscribe cb w
  | .unsubscribeOp cb => unsubscribeOne cb w
  | .unsubscribeAllOp => unsubscribeAll w
  | .resolveOp p => resolveProm p w
  | .rejectOp p => rejectProm p w
  | .microOp => runMicro w

/-- Run a list of steps in order. -/
def run (w : World) (os : List Op) : World :=
  os.foldl (fun w o => stepOp o w) w

/-- `new Topic({ros, name, messageType})` with a live connection:
fresh private state, nothing advertised or subscribed, empty trace. -/
def mkTopic (name messageType : String) : World :=
  { topic :=
      { name := name, messageType := messageType
        publisher := none, subscriptions := [] }
    connected := true
    promises := []
    microtasks := []
    trace := []
    nextProm := 0
    nextHandle := 0 }

/-- Count the `createPublisher` requests in a trace. -/
def countCreatePub (tr : List Ev) : Nat :=
  (tr.filter (fun e => match e with | .createPublisher _ _ => true | _ => false)).length

/-- Count the `unadvertise` calls received by handle `h`. -/
def countUnadvertised (h : Nat) (tr : List Ev) : Nat :=
  (tr.filter (fun e => e = .unadvertiseHandle h)).length

/-- Count the `unsubscribe` calls received by handle `h`. -/
def countUnsubscribed (h : Nat) (tr : List Ev) : Nat :=
  (tr.filter (fun e => e = .unsubscribeHandle h)).length

/-- The `publish` calls received by publisher handles, in trace
order. -/
def publishCalls (tr : List Ev) : List Ev :=
  tr.filter (fun e => match e with | .publishMsg _ _ => true | _ => false)

/-- Count the `createSubscription` requests in a trace. -/
def countCreateSub (tr : List Ev) : Nat :=
  (tr.filter (fun e => match e with | .createSubscription _ _ => true | _ => false)).length

/-- Canonical world with one outstanding publisher promise (id 0,
pending with reactions `rs`) and trace `tr`: the shape reached by
`advertise()` on a fresh topic followed by any number of `publish`
calls. -/
def pubPending (nm ty : String) (rs : List Reaction) (tr : List Ev) : World :=
  { topic := { name := nm, messageType := ty, publisher := some 0, subscriptions := [] }
    connected := true
    promises := [(0, .pending rs)]
    microtasks := []
    trace := tr
    nextProm := 1
    nextHandle := 0 }

/-- Canonical world after the publisher promise (id 0) resolved with
handle 0: the queued reactions `mt` now sit on the microtask queue. -/
def pubResolved (nm ty : String) (mt : List Reaction) (tr : List Ev) : World :=
  { topic := { name := nm, messageType := ty, publisher := some 0, subscriptions := [] }
    connected := true
    promises := [(0, .resolved 0)]
    microtasks := mt.map (fun c => (0, c))
    trace := tr
    nextProm := 1
    nextHandle := 1 }

/-- The construction-time fields of the topic, as one value. -/
def frame (w : World) : String × String :=
  (w.topic.name, w.topic.messageType)

/-! ### Basic run lemmas -/

theorem run_nil (w : World) : run w [] = w := rfl

theorem run_cons (w : World) (o : Op) (os : List Op) :
    run w (o :: os) = run (stepOp o w) os := rfl

theorem run_append (w : World) (a b : List Op) :
    run w (a ++ b) = run (run w a) b :=
  List.foldl_append _ _ a b

theorem countCreatePub_append (a b : List Ev) :
    countCreatePub (a ++ b) = countCreatePub a + countCreatePub b := by
  simp [countCreatePub, List.filter_append]

theorem advertise_trace (w : World) (h : w.connected = true) :
    (advertise w).trace
      = w.trace ++ [.createPublisher w.topic.name w.topic.messageType] := by
  simp [advertise, h]

theorem advertise_connected (w : World) : (advertise w).connected = w.connected := by
  unfold advertise
  split <;> rfl

theorem run_replicate_advertise (k : Nat) :
    ∀ w : World, w.connected = true →
      countCreatePub ((run w (List.replicate k .advertiseOp)).trace)
        = countCreatePub w.trace + k := by
  induction k with
  | zero => intro w _; simp [run]
  | succ n ih =>
    intro w h
    rw [List.replicate_succ, run_cons]
    show countCreatePub ((run (advertise w) (List.replicate n .advertiseOp)).trace) = _
    rw [ih (advertise w) (by rw [advertise_connected]; exact h),
      advertise_trace w h, countCreatePub_append]
    simp [countCreatePub]
    omega

/-! ### C1 -/

/-- C1 counterexample: on a fresh topic, two `advertise()` calls with no
intervening `unadvertise()` issue TWO `createPublisher` requests to the
Connection, not one — `Topic.advertise` reassigns `#publisher`
unconditionally, so a further `advertise()` while a request is pending
is not a no-op. -/
theorem advertise_twice_two_requests :
    countCreatePub ((run (mkTopic "/chatter" "std_msgs/String")
        [.advertiseOp, .advertiseOp]).trace) = 2 ∧
    ¬ countCreatePub ((run (mkTopic "/chatter" "std_msgs/String")
        [.advertiseOp, .advertiseOp]).trace) = 1 := by
  exact ⟨rfl, by decide⟩

/-- C1 amended: every `advertise()` call on a connected topic issues its
own `createPublisher` request — a sequence of `k` calls with no
intervening `unadvertise()` issues exactly `k` requests, one per call
(so a single `advertise()` issues exactly one, but the call is not
idempotent while a publisher is pending or resolved). -/
theorem advertise_request_per_call (k : Nat) (nm ty : String) :
    countCreatePub ((run (mkTopic nm ty) (List.replicate k .advertiseOp)).trace) = k := by
  rw [run_replicate_advertise k (mkTopic nm ty) rfl]
  simp [mkTopic, countCreatePub]

/-! ### C2 -/

/-- C2: calling `subscribe` twice with the same callback before either
`createSubscription` request resolves leaves an orphaned handle.  Two
requests are issued (promises 0 and 1); after both resolve (handles 0
and 1) the map holds only the second handle, and NO `unsubscribe` is
ever sent to handle 0, which stays live on the transport — the code
violates the required no-orphan property. -/
theorem double_subscribe_orphan :
    (run (mkTopic "/chatter" "std_msgs/String")
        [.subscribeOp 7, .subscribeOp 7, .resolveOp 0, .resolveOp 1,
          .microOp, .microOp]).topic.subscriptions = [(7, 1)] ∧
    countCreateSub ((run (mkTopic "/chatter" "std_msgs/String")
        [.subscribeOp 7, .subscribeOp 7, .resolveOp 0, .resolveOp 1,
          .microOp, .microOp]).trace) = 2 ∧
    promLookup (run (mkTopic "/chatter" "std_msgs/String")
        [.subscribeOp 7, .subscribeOp 7, .resolveOp 0, .resolveOp 1,
          .microOp, .microOp]).promises 0 = some (.resolved 0) ∧
    countUnsubscribed 0 ((run (mkTopic "/chatter" "std_msgs/String")
        [.subscribeOp 7, .subscribeOp 7, .resolveOp 0, .resolveOp 1,
          .microOp, .microOp]).trace) = 0 := by
  exact ⟨rfl, rfl, rfl, rfl⟩

/-! ### C3 -/

/-- C3 counterexample: with a resolved publisher, two `unadvertise()`
calls made before the first teardown continuation has run both register
a continuation on the same publisher promise, so the underlying handle
receives TWO `unadvertise` calls — more than the "at most one" the
claim states. -/
theorem unadvertise_twice_two_teardowns :
    countUnadvertised 0 ((run (mkTopic "/chatter" "std_msgs/String")
        [.advertiseOp, .resolveOp 0, .unadvertiseOp, .unadvertiseOp,
          .microOp, .microOp]).trace) = 2 ∧
    ¬ countUnadvertised 0 ((run (mkTopic "/chatter" "std_msgs/String")
        [.advertiseOp, .resolveOp 0, .unadvertiseOp, .unadvertiseOp,
          .microOp, .microOp]).trace) ≤ 1 := by
  exact ⟨rfl, by decide⟩

/-- C3 amended: `unadvertise()` called twice in a row produces exactly
one `unadvertise` call on the underlying handle PROVIDED the first
call's continuation has run (clearing `#publisher`) before the second
call; the second call is then a no-op on the unchanged world.  (Two
calls made before the continuation runs each fire the teardown, see the
counterexample.) -/
theorem unadvertise_again_after_completion (w : World) (p h : Nat)
    (hp : w.topic.publisher = some p)
    (hr : promLookup w.promises p = some (.resolved h))
    (hm : w.microtasks = []) :
    (run w [.unadvertiseOp, .microOp, .unadvertiseOp]).trace
        = w.trace ++ [.unadvertiseHandle h] ∧
    run w [.unadvertiseOp, .microOp, .unadvertiseOp]
        = run w [.unadvertiseOp, .microOp] := by
  have h1 : stepOp .unadvertiseOp w = { w with microtasks := [(p, .unadvertiseCont)] } := by
    simp [stepOp, unadvertise, hp, thenAttach, hr, hm]
  have h2 : stepOp .microOp { w with microtasks := [(p, Reaction.unadvertiseCont)] }
      = { w with
            microtasks := []
            trace := w.trace ++ [.unadvertiseHandle h]
            topic := { w.topic with publisher := none } } := by
    simp [stepOp, runMicro, hr, runCont]
  have h3 : stepOp .unadvertiseOp
      { w with
          microtasks := []
          trace := w.trace ++ [.unadvertiseHandle h]
          topic := { w.topic with publisher := none } }
      = { w with
            microtasks := []
            trace := w.trace ++ [.unadvertiseHandle h]
            topic := { w.topic with publisher := none } } := by
    simp [stepOp, unadvertise]
  have e2 : run w [.unadvertiseOp, .microOp]
      = { w with
            microtasks := []
            trace := w.trace ++ [.unadvertiseHandle h]
            topic := { w.topic with publisher := none } } := by
    rw [show run w [.unadvertiseOp, .microOp]
        = stepOp .microOp (stepOp .unadvertiseOp w) from rfl, h1, h2]
  have e3 : run w [.unadvertiseOp, .microOp, .unadvertiseOp]
      = { w with
            microtasks := []
            trace := w.trace ++ [.unadvertiseHandle h]
            topic := { w.topic with publisher := none } } := by
    rw [show run w [.unadvertiseOp, .microOp, .unadvertiseOp]
        = stepOp .unadvertiseOp (stepOp .microOp (stepOp .unadvertiseOp w)) from rfl,
      h1, h2, h3]
  rw [e2, e3]
  exact ⟨rfl, rfl⟩

/-- C3 witness: a concrete topic with its publisher resolved, where the
first `unadvertise` completed before the second call: exactly one
teardown reaches the handle and the trailing `unadvertise()` changes
nothing. -/
theorem unadvertise_again_after_completion_witness :
    (run (run (mkTopic "/chatter" "std_msgs/String") [.advertiseOp, .resolveOp 0])
        [.unadvertiseOp, .microOp, .unadvertiseOp]).trace
      = (run (mkTopic "/chatter" "std_msgs/String") [.advertiseOp, .resolveOp 0]).trace
          ++ [.unadvertiseHandle 0] ∧
    run (run (mkTopic "/chatter" "std_msgs/String") [.advertiseOp, .resolveOp 0])
        [.unadvertiseOp, .microOp, .unadvertiseOp]
      = run (run (mkTopic "/chatter" "std_msgs/String") [.advertiseOp, .resolveOp 0])
        [.unadvertiseOp, .microOp] :=
  unadvertise_again_after_completion
    (run (mkTopic "/chatter" "std_msgs/String") [.advertiseOp, .resolveOp 0])
    0 0 rfl rfl rfl

/-! ### C4 -/

theorem advertise_mkTopic (nm ty : String) :
    stepOp .advertiseOp (mkTopic nm ty)
      = pubPending nm ty [] [.createPublisher nm ty] := rfl

theorem publish_pubPending (nm ty : String) (m : Nat) (rs : List Reaction) (tr : List Ev) :
    stepOp (.publishOp m) (pubPending nm ty rs tr)
      = pubPending nm ty (rs ++ [.pubForward m]) tr := rfl

theorem run_publishes (nm ty : String) :
    ∀ (ms : List Nat) (rs : List Reaction) (tr : List Ev),
      run (pubPending nm ty rs tr) (ms.map .publishOp)
        = pubPending nm ty (rs ++ ms.map .pubForward) tr := by
  intro ms
  induction ms with
  | nil => intro rs tr; simp [run]
  | cons m ms ih =>
    intro rs tr
    rw [List.map_cons, run_cons, publish_pubPending, ih]
    simp

theorem resolve_pubPending (nm ty : String) (rs : List Reaction) (tr : List Ev) :
    stepOp (.resolveOp 0) (pubPending nm ty rs tr) = pubResolved nm ty rs tr := rfl

theorem micro_pubResolved (nm ty : String) (m : Nat) (mt : List Reaction) (tr : List Ev) :
    stepOp .microOp (pubResolved nm ty (.pubForward m :: mt) tr)
      = pubResolved nm ty mt (tr ++ [.publishMsg 0 m]) := rfl

theorem run_micros (nm ty : String) :
    ∀ (ms : List Nat) (tr : List Ev),
      run (pubResolved nm ty (ms.map .pubForward) tr) (List.replicate ms.length .microOp)
        = pubResolved nm ty [] (tr ++ ms.map (.publishMsg 0)) := by
  intro ms
  induction ms with
  | nil => intro tr; simp [run]
  | cons m ms ih =>
    intro tr
    rw [List.length_cons, List.replicate_succ, List.map_cons, run_cons,
      micro_pubResolved, ih]
    simp

/-- C4: publish ordering.  If `advertise()` is followed by
`publish(m_1) .. publish(m_N)` issued in program order before the
publisher promise resolves, each forward is chained behind that one
shared promise, and once it resolves (handle 0) and the queued
microtasks run, the handle receives exactly `m_1 .. m_N` in issue
order: the whole trace is the single `createPublisher` request followed
by the in-order `publish` calls. -/
theorem publish_order_preserved (nm ty : String) (ms : List Nat) :
    (run (mkTopic nm ty)
        (.advertiseOp :: ms.map .publishOp ++ [.resolveOp 0]
          ++ List.replicate ms.length .microOp)).trace
      = .createPublisher nm ty :: ms.map (.publishMsg 0) := by
  rw [run_append, run_append,
    run_cons (mkTopic nm ty) .advertiseOp (ms.map .publishOp),
    advertise_mkTopic, run_publishes, List.nil_append,
    run_cons (pubPending nm ty (ms.map .pubForward) [.createPublisher nm ty])
      (.resolveOp 0) [],
    resolve_pubPending, run_nil, run_micros]
  rfl

/-! ### C5 -/

/-- C5: after `advertise()`, a completed `unadvertise()` (publisher
resolved as handle 0, teardown continuation run), the publisher state
is back to `none` (UNADVERTISED); a subsequent `publish(m)` then issues
a NEW `createPublisher` request — the trace gains a second request —
and chains the message behind the fresh promise (id 1), not behind the
old handle. -/
theorem readvertise_after_unadvertise (nm ty : String) (m : Nat) :
    (run (mkTopic nm ty)
        [.advertiseOp, .resolveOp 0, .unadvertiseOp, .microOp]).topic.publisher
      = none ∧
    (run (mkTopic nm ty)
        [.advertiseOp, .resolveOp 0, .unadvertiseOp, .microOp, .publishOp m]).trace
      = [.createPublisher nm ty, .unadvertiseHandle 0, .createPublisher nm ty] ∧
    (run (mkTopic nm ty)
        [.advertiseOp, .resolveOp 0, .unadvertiseOp, .microOp, .publishOp m]).topic.publisher
      = some 1 ∧
    promLookup (run (mkTopic nm ty)
        [.advertiseOp, .resolveOp 0, .unadvertiseOp, .microOp, .publishOp m]).promises 1
      = some (.pending [.pubForward m]) :=
  ⟨rfl, rfl, rfl, rfl⟩

/-! ### C6 -/

theorem mapSet_notMem (k v : Nat) (m : List (Nat × Nat))
    (h : m.any (fun e => e.1 = k) = false) :
    mapSet k v m = m ++ [(k, v)] := by
  simp [mapSet, h]

/-- C6: with two resolved subscriptions for distinct callbacks,
`unsubscribe()` with no argument empties the subscriptions map and each
underlying handle (0 and 1) receives exactly one `unsubscribe` call;
with zero subscriptions `unsubscribe()` leaves the world untouched. -/
theorem unsubscribeAll_clears_state (nm ty : String) (cb1 cb2 : Nat)
    (hne : cb1 ≠ cb2) :
    (run (mkTopic nm ty)
        [.subscribeOp cb1, .subscribeOp cb2, .resolveOp 0, .resolveOp 1,
          .microOp, .microOp, .unsubscribeAllOp]).topic.subscriptions = [] ∧
    (run (mkTopic nm ty)
        [.subscribeOp cb1, .subscribeOp cb2, .resolveOp 0, .resolveOp 1,
          .microOp, .microOp, .unsubscribeAllOp]).trace
      = [.createSubscription nm cb1, .createSubscription nm cb2,
          .unsubscribeHandle 0, .unsubscribeHandle 1] ∧
    run (mkTopic nm ty) [.unsubscribeAllOp] = mkTopic nm ty := by
  have hmap : mapSet cb2 1 [(cb1, 0)] = [(cb1, 0), (cb2, 1)] := by
    rw [mapSet_notMem]
    · rfl
    · simp [hne]
  have h6 : run (mkTopic nm ty)
      [.subscribeOp cb1, .subscribeOp cb2, .resolveOp 0, .resolveOp 1,
        .microOp, .microOp]
      = { topic := { name := nm, messageType := ty, publisher := none
                     subscriptions := [(cb1, 0), (cb2, 1)] }
          connected := true
          promises := [(0, .resolved 0), (1, .resolved 1)]
          microtasks := []
          trace := [.createSubscription nm cb1, .createSubscription nm cb2]
          nextProm := 2
          nextHandle := 2 } := by
    have h5 : run (mkTopic nm ty)
        [.subscribeOp cb1, .subscribeOp cb2, .resolveOp 0, .resolveOp 1, .microOp]
        = { topic := { name := nm, messageType := ty, publisher := none
                       subscriptions := [(cb1, 0)] }
            connected := true
            promises := [(0, .resolved 0), (1, .resolved 1)]
            microtasks := [(1, .subStore cb2)]
            trace := [.createSubscription nm cb1, .createSubscription nm cb2]
            nextProm := 2
            nextHandle := 2 } := rfl
    rw [show run (mkTopic nm ty)
        [.subscribeOp cb1, .subscribeOp cb2, .resolveOp 0, .resolveOp 1,
          .microOp, .microOp]
      = stepOp .microOp (run (mkTopic nm ty)
        [.subscribeOp cb1, .subscribeOp cb2, .resolveOp 0, .resolveOp 1, .microOp])
      from rfl, h5]
    show { topic := { name := nm, messageType := ty, publisher := none
                      subscriptions := mapSet cb2 1 [(cb1, 0)] }
           connected := true
           promises := [(0, PromState.resolved 0), (1, PromState.resolved 1)]
           microtasks := []
           trace := [.createSubscription nm cb1, .createSubscription nm cb2]
           nextProm := 2
           nextHandle := 2 : World } = _
    rw [hmap]
  refine ⟨?_, ?_, rfl⟩
  · rw [show run (mkTopic nm ty)
        [.subscribeOp cb1, .subscribeOp cb2, .resolveOp 0, .resolveOp 1,
          .microOp, .microOp, .unsubscribeAllOp]
      = stepOp .unsubscribeAllOp (run (mkTopic nm ty)
        [.subscribeOp cb1, .subscribeOp cb2, .resolveOp 0, .resolveOp 1,
          .microOp, .microOp]) from rfl, h6]
    rfl
  · rw [show run (mkTopic nm ty)
        [.subscribeOp cb1, .subscribeOp cb2, .resolveOp 0, .resolveOp 1,
          .microOp, .microOp, .unsubscribeAllOp]
      = stepOp .unsubscribeAllOp (run (mkTopic nm ty)
        [.subscribeOp cb1, .subscribeOp cb2, .resolveOp 0, .resolveOp 1,
          .microOp, .microOp]) from rfl, h6]
    rfl

/-- C6 witness: the statement at callbacks 0 and 1 on a concrete
topic. -/
theorem unsubscribeAll_clears_state_witness :
    (run (mkTopic "/chatter" "std_msgs/String")
        [.subscribeOp 0, .subscribeOp 1, .resolveOp 0, .resolveOp 1,
          .microOp, .microOp, .unsubscribeAllOp]).topic.subscriptions = [] ∧
    (run (mkTopic "/chatter" "std_msgs/String")
        [.subscribeOp 0, .subscribeOp 1, .resolveOp 0, .resolveOp 1,
          .microOp, .microOp, .unsubscribeAllOp]).trace
      = [.createSubscription "/chatter" 0, .createSubscription "/chatter" 1,
          .unsubscribeHandle 0, .unsubscribeHandle 1] ∧
    run (mkTopic "/chatter" "std_msgs/String") [.unsubscribeAllOp]
      = mkTopic "/chatter" "std_msgs/String" :=
  unsubscribeAll_clears_state "/chatter" "std_msgs/String" 0 1 (by decide)

/-! ### C7 -/

/-- C7: `unsubscribe` (with or without the callback argument) running
before the pending `createSubscription` for `cb` resolves tears nothing
down: the map is empty at that moment, so no handle receives an
`unsubscribe` call, and when the request later resolves its handle is
still inserted into the subscriptions map — teardown only covers
entries resolved at call time. -/
theorem unsubscribe_ignores_pending (nm ty : String) (cb : Nat) :
    ((run (mkTopic nm ty)
        [.subscribeOp cb, .unsubscribeAllOp, .resolveOp 0, .microOp]).topic.subscriptions
        = [(cb, 0)] ∧
      (run (mkTopic nm ty)
        [.subscribeOp cb, .unsubscribeAllOp, .resolveOp 0, .microOp]).trace
        = [.createSubscription nm cb]) ∧
    ((run (mkTopic nm ty)
        [.subscribeOp cb, .unsubscribeOp cb, .resolveOp 0, .microOp]).topic.subscriptions
        = [(cb, 0)] ∧
      (run (mkTopic nm ty)
        [.subscribeOp cb, .unsubscribeOp cb, .resolveOp 0, .microOp]).trace
        = [.createSubscription nm cb]) :=
  ⟨⟨rfl, rfl⟩, ⟨rfl, rfl⟩⟩

/-! ### C8 -/

/-- C8: when the Connection rejects the `createSubscription` request
issued by `subscribe(cb)`, the stored fulfillment reaction is dropped:
`cb` is never added to the subscriptions map, no microtask remains that
could add or invoke it, the promise is terminally rejected, and a
further microtask turn changes nothing (the model is total, so no
exception reaches `subscribe`'s caller; the code installs no rejection
handler, so nothing is re-thrown). -/
theorem subscribe_rejected_never_registered (nm ty : String) (cb : Nat) :
    (run (mkTopic nm ty) [.subscribeOp cb, .rejectOp 0]).topic.subscriptions = [] ∧
    (run (mkTopic nm ty) [.subscribeOp cb, .rejectOp 0]).microtasks = [] ∧
    promLookup (run (mkTopic nm ty) [.subscribeOp cb, .rejectOp 0]).promises 0
      = some .rejected ∧
    stepOp .microOp (run (mkTopic nm ty) [.subscribeOp cb, .rejectOp 0])
      = run (mkTopic nm ty) [.subscribeOp cb, .rejectOp 0] :=
  ⟨rfl, rfl, rfl, rfl⟩

/-! ### C9 -/

theorem mapDelete_lookup_none (cb : Nat) (l : List (Nat × Nat))
    (h : l.lookup cb = none) : mapDelete cb l = l := by
  rw [mapDelete, List.filter_eq_self]
  rintro ⟨a, b⟩ hab
  have h2 : ∀ x y : Nat, (x, y) ∈ l → ¬ cb = x := by simpa using h
  simpa using fun hh : a = cb => h2 a b hab hh.symm

/-- C9: `unsubscribe(cb)` for a callback with no entry in the
subscriptions map (never subscribed, or already removed) leaves the
world exactly as it was: no handle receives an `unsubscribe` call, no
error is possible (the step is a total function), and the map is
unchanged. -/
theorem unsubscribe_missing_noop (w : World) (cb : Nat)
    (h : w.topic.subscriptions.lookup cb = none) :
    stepOp (.unsubscribeOp cb) w = w := by
  show unsubscribeOne cb w = w
  rw [unsubscribeOne]
  simp only [h, mapDelete_lookup_none cb _ h]

/-- C9 witness: unsubscribing a never-subscribed callback on a fresh
topic changes nothing. -/
theorem unsubscribe_missing_noop_witness :
    stepOp (.unsubscribeOp 5) (mkTopic "/chatter" "std_msgs/String")
      = mkTopic "/chatter" "std_msgs/String" :=
  unsubscribe_missing_noop (mkTopic "/chatter" "std_msgs/String") 5 rfl

/-! ### C10 -/

theorem frame_thenAttach (p : Nat) (c : Reaction) (w : World) :
    frame (thenAttach p c w) = frame w := by
  rw [thenAttach]
  split <;> rfl

theorem frame_advertise (w : World) : frame (advertise w) = frame w := by
  rw [advertise]
  split <;> rfl

theorem frame_publish (m : Nat) (w : World) : frame (publish m w) = frame w := by
  rw [publish]
  by_cases hp : w.topic.publisher = none
  · simp only [hp, if_pos]
    split
    · rw [frame_thenAttach, frame_advertise]
    · rw [frame_advertise]
  · simp only [hp, if_neg, if_false]
    split
    · rw [frame_thenAttach]
    · rfl

theorem frame_subscribe (cb : Nat) (w : World) :
    frame (subscribe cb w) = frame w := by
  rw [subscribe]
  split <;> rfl

theorem frame_unsubscribeOne (cb : Nat) (w : World) :
    frame (unsubscribeOne cb w) = frame w := by
  rw [unsubscribeOne]
  split <;> rfl

theorem frame_runCont (h : Nat) (c : Reaction) (w : World) :
    frame (runCont h c w) = frame w := by
  cases c <;> rfl

theorem frame_runMicro (w : World) : frame (runMicro w) = frame w := by
  rw [runMicro]
  split
  · rfl
  · split
    · rw [frame_runCont]
      rfl
    · rfl

theorem frame_stepOp (o : Op) (w : World) : frame (stepOp o w) = frame w := by
  cases o with
  | advertiseOp => exact frame_advertise w
  | unadvertiseOp =>
    show frame (unadvertise w) = frame w
    rw [unadvertise]
    split
    · rw [frame_thenAttach]
    · rfl
  | publishOp m => exact frame_publish m w
  | subscribeOp cb => exact frame_subscribe cb w
  | unsubscribeOp cb => exact frame_unsubscribeOne cb w
  | unsubscribeAllOp => rfl
  | resolveOp p =>
    show frame (resolveProm p w) = frame w
    rw [resolveProm]
    split <;> rfl
  | rejectOp p =>
    show frame (rejectProm p w) = frame w
    rw [rejectProm]
    split <;> rfl
  | microOp => exact frame_runMicro w

theorem frame_run (os : List Op) : ∀ w : World, frame (run w os) = frame w := by
  induction os with
  | nil => intro w; rfl
  | cons o os ih =>
    intro w
    rw [run_cons, ih (stepOp o w), frame_stepOp]

/-- C10: the `name` and `messageType` getters return the
construction-time values after any sequence of operations — `#name`
and `#messageType` are written only in the constructor, and no
operation (`publish`, `subscribe`, `unsubscribe`, `advertise`,
`unadvertise`, nor any promise settlement or microtask turn) modifies
either field. -/
theorem name_messageType_immutable (nm ty : String) (os : List Op) :
    (run (mkTopic nm ty) os).topic.name = nm ∧
    (run (mkTopic nm ty) os).topic.messageType = ty :=
  ⟨congrArg Prod.fst (frame_run os (mkTopic nm ty)),
   congrArg Prod.snd (frame_run os (mkTopic nm ty))⟩
